import Mathlib

/-!
# SmartPark Rubavu — verification of the slot allocation and billing engine

Shallow embedding of the engine found in `src/App.tsx`, `src/types.ts`,
`src/services/geminiService.ts` (constants section) and the second app
variant contained in `src/unnamed/part_000`.  Timestamps are modelled as
integers (milliseconds since the epoch, the value of
`Date.prototype.getTime`); the JavaScript floating-point arithmetic on
fractional hours is modelled exactly over `ℚ` with `Int.ceil` / `Int.floor`
standing for `Math.ceil` / `Math.floor`.

The repository contains two near-duplicate applications whose fee formulas
differ; they are embedded in the namespaces `AppV3` (the top-level
`src/App.tsx`, storage keys `smartpark_*_v3`) and `Pssms` (the variant in
`src/unnamed/part_000`, storage keys `pssms_*_db`).
-/

namespace SmartPark

/-- `SlotStatus` from `src/types.ts`. -/
inductive SlotStatus where
  | AVAILABLE
  | OCCUPIED
  | MAINTENANCE
deriving DecidableEq

/-- `CarEntry` from `src/types.ts`; `entryTime` is the ISO string read back
through `new Date(...).getTime()`, modelled directly as milliseconds. -/
structure CarEntry where
  id : String
  plateNumber : String
  driverName : String
  driverPhone : String
  entryTime : Int
  slotId : String
deriving DecidableEq

/-- `ParkingSlot` from `src/types.ts` (`currentCar` is the optional field). -/
structure ParkingSlot where
  id : String
  number : String
  status : SlotStatus
  currentCar : Option CarEntry := none
deriving DecidableEq

/-- `Transaction` from `src/types.ts`. -/
structure Transaction where
  id : String
  plateNumber : String
  driverName : String
  entryTime : Int
  exitTime : Int
  durationMinutes : Int
  totalFee : Int
  slotNumber : String
deriving DecidableEq

/-- `ParkStats` from `src/types.ts`. -/
structure ParkStats where
  totalRevenue : Int
  totalEntries : Int
  availableSlots : Int
  occupiedSlots : Int
deriving DecidableEq

/-- `HOURLY_RATE` from the constants module (500 RWF). -/
def HOURLY_RATE : Int := 500

/-- `MIN_FEE` from the constants module (300 RWF). -/
def MIN_FEE : Int := 300

/-- `(i+1).toString().padStart(2, '0')` for the slot labels. -/
def pad2 (s : String) : String := if s.length ≥ 2 then s else "0" ++ s

/-- `INITIAL_SLOTS` from the constants module: 24 available slots. -/
def INITIAL_SLOTS : List ParkingSlot :=
  (List.range 24).map (fun i =>
    { id := "slot-" ++ toString (i + 1),
      number := "A" ++ pad2 (toString (i + 1)),
      status := SlotStatus.AVAILABLE,
      currentCar := none })

namespace AppV3

/-- `calculateLiveFee` of `src/App.tsx` (lines 149–153), generalized over the
tariff constants: `Math.max(MIN_FEE, Math.ceil(durationHours * HOURLY_RATE))`
where `durationHours = (now - entry) / 3600000`.  Note that the `ceil` is
applied to the product `hours × rate`. -/
def liveFee (rate minFee entryTime now : Int) : Int :=
  max minFee ⌈((now - entryTime : Int) : ℚ) / 3600000 * (rate : ℚ)⌉

/-- `calculateLiveFee` of `src/App.tsx` at the repository's constants. -/
def calculateLiveFee (entryTime now : Int) : Int :=
  liveFee HOURLY_RATE MIN_FEE entryTime now

end AppV3

namespace Pssms

/-- `calculateLiveFee` of the `src/unnamed/part_000` variant (lines 291–298),
generalized over the tariff constants:
`rate = Math.ceil(durationHours) * HOURLY_RATE; return Math.max(MIN_FEE, rate)`.
Here the `ceil` is applied to the fractional hours before multiplying. -/
def liveFee (rate minFee entryTime now : Int) : Int :=
  max minFee (⌈((now - entryTime : Int) : ℚ) / 3600000⌉ * rate)

/-- `calculateLiveFee` of the `part_000` variant at the repository's
constants. -/
def calculateLiveFee (entryTime now : Int) : Int :=
  liveFee HOURLY_RATE MIN_FEE entryTime now

end Pssms

/-- Kernel-evaluable form of the rational ceiling of an integer quotient. -/
theorem ceil_intCast_div_natCast (n : ℤ) (d : ℕ) :
    ⌈(↑n / ↑d : ℚ)⌉ = -((-n) / (d : ℤ)) := by
  rw [show ((n : ℚ)) = -(((-n : ℤ)) : ℚ) from by push_cast; ring]
  rw [neg_div, Int.ceil_neg, Rat.floor_intCast_div_natCast]

/-- `AppV3.liveFee` rewritten with integer division, for concrete evaluation. -/
theorem AppV3.liveFee_intDiv (rate minFee e n : Int) :
    AppV3.liveFee rate minFee e n
      = max minFee (-((-((n - e) * rate)) / 3600000)) := by
  unfold AppV3.liveFee
  rw [div_mul_eq_mul_div,
    show ((n - e : Int) : ℚ) * (rate : ℚ) = (((n - e) * rate : Int) : ℚ) from by
      push_cast; ring,
    show ((3600000 : ℚ)) = ((3600000 : ℕ) : ℚ) from by norm_num,
    ceil_intCast_div_natCast]
  norm_num

/-- `Pssms.liveFee` rewritten with integer division, for concrete evaluation. -/
theorem Pssms.liveFee_intCeilDiv (rate minFee e n : Int) :
    Pssms.liveFee rate minFee e n
      = max minFee ((-((-(n - e)) / 3600000)) * rate) := by
  unfold Pssms.liveFee
  rw [show ((3600000 : ℚ)) = ((3600000 : ℕ) : ℚ) from by norm_num,
    ceil_intCast_div_natCast]
  norm_num

/-- The two persisted React state variables of the app: the slot registry
(`slots`) and the transaction ledger (`transactions`). -/
structure ParkState where
  slots : List ParkingSlot
  transactions : List Transaction
deriving DecidableEq

/-- `handleEntry` of `src/App.tsx` (lines 163–179) / `part_000` (311–327),
as a state transformer.  `selectedSlot || slots.find(s => s.status ===
SlotStatus.AVAILABLE)`: a requested slot is used as-is; otherwise the first
AVAILABLE slot; if neither exists the state is unchanged (the `alert`
branch).  The chosen slot is mapped, by id, to OCCUPIED with the new
`CarEntry` attached. -/
def handleEntry (st : ParkState) (selectedSlot : Option ParkingSlot)
    (entryId plate dName dPhone : String) (now : Int) : ParkState :=
  let slotToUse := match selectedSlot with
    | some s => some s
    | none => st.slots.find? (fun s => decide (s.status = SlotStatus.AVAILABLE))
  match slotToUse with
  | none => st
  | some u =>
    let newEntry : CarEntry :=
      { id := entryId, plateNumber := plate.toUpper, driverName := dName,
        driverPhone := dPhone, entryTime := now, slotId := u.id }
    { st with slots := st.slots.map (fun s =>
        if s.id = u.id
        then { s with status := SlotStatus.OCCUPIED, currentCar := some newEntry }
        else s) }

/-- `processExit` of `src/App.tsx` (lines 181–200): if the selected slot has
no current car, nothing happens; otherwise a transaction with exit time
`now`, the live fee and the whole-minute duration is appended to the ledger
and the slot (by id) is released to AVAILABLE with no car. -/
def processExit (st : ParkState) (selectedSlot : ParkingSlot)
    (txId : String) (now : Int) : ParkState :=
  match selectedSlot.currentCar with
  | none => st
  | some entry =>
    let tx : Transaction :=
      { id := txId, plateNumber := entry.plateNumber,
        driverName := entry.driverName, entryTime := entry.entryTime,
        exitTime := now,
        durationMinutes := ⌊((now - entry.entryTime : Int) : ℚ) / 60000⌋,
        totalFee := AppV3.calculateLiveFee entry.entryTime now,
        slotNumber := selectedSlot.number }
    { slots := st.slots.map (fun s =>
        if s.id = selectedSlot.id
        then { s with status := SlotStatus.AVAILABLE, currentCar := none }
        else s),
      transactions := st.transactions ++ [tx] }

/-- `handleAddSlot` of `src/unnamed/part_000` (lines 330–341): appends a new
AVAILABLE slot with an uppercased label; a blank label is a no-op. -/
def handleAddSlot (st : ParkState) (slotId newSlotNumber : String) : ParkState :=
  if newSlotNumber = "" then st
  else { st with slots := st.slots ++
    [{ id := slotId, number := newSlotNumber.toUpper,
       status := SlotStatus.AVAILABLE, currentCar := none }] }

/-- The "Force purge" handler of `src/App.tsx` (line 610): releases the slot
(by id) to AVAILABLE, discarding the occupant without billing. -/
def forcePurge (st : ParkState) (slotId : String) : ParkState :=
  { st with slots := st.slots.map (fun s =>
      if s.id = slotId
      then { s with status := SlotStatus.AVAILABLE, currentCar := none }
      else s) }

/-- `handleUpdateRecord` of `src/unnamed/part_000` (lines 369–375): replaces
every transaction whose id equals the edited record's id by the edited
record, as supplied (no recomputation). -/
def handleUpdateRecord (transactions : List Transaction)
    (editingRecord : Transaction) : List Transaction :=
  transactions.map (fun t => if t.id = editingRecord.id then editingRecord else t)

/-- `handleDeleteRecord` of `src/unnamed/part_000` (lines 378–382): keeps
exactly the transactions whose id differs from the given id. -/
def handleDeleteRecord (transactions : List Transaction)
    (recId : String) : List Transaction :=
  transactions.filter (fun t => decide (¬ t.id = recId))

/-- `stats` of `src/App.tsx` (lines 87–96) / `part_000` (226–235). -/
def stats (slots : List ParkingSlot) (transactions : List Transaction) :
    ParkStats :=
  let totalRevenue := (transactions.map (fun t => t.totalFee)).sum
  let occupied :=
    ((slots.filter (fun s => decide (s.status = SlotStatus.OCCUPIED))).length : Int)
  { totalRevenue := totalRevenue,
    totalEntries := (transactions.length : Int) + occupied,
    availableSlots := (slots.length : Int) - occupied,
    occupiedSlots := occupied }

/-- The bucket index assigned by `durationDistributionData` of `src/App.tsx`
(lines 129–139) to an active car: `diffHrs < 1` → 0 ("Short (<1h)"),
`diffHrs < 3` → 1 ("Mid (1-3h)"), else 2 ("Long (>3h)"). -/
def durationCategory (entry now : Int) : Nat :=
  let diffHrs : ℚ := ((now - entry : Int) : ℚ) / 3600000
  if diffHrs < 1 then 0 else if diffHrs < 3 then 1 else 2

/-- The category labels of `durationDistributionData` in `src/App.tsx`. -/
def durationCategoryNames : List String :=
  ["Short (<1h)", "Mid (1-3h)", "Long (>3h)"]

/-- The bucket index assigned by `analyticsData` of `src/unnamed/part_000`
(lines 241–254) to a closed transaction: `h = durationMinutes / 60`;
`h <= 1` → 0 ("0-1h"), `h <= 3` → 1 ("1-3h"), `h <= 5` → 2 ("3-5h"),
else 3 ("5h+"). -/
def durationRangeIndex (durationMinutes : Int) : Nat :=
  let h : ℚ := (durationMinutes : ℚ) / 60
  if h ≤ 1 then 0 else if h ≤ 3 then 1 else if h ≤ 5 then 2 else 3

/-- The range names of `analyticsData` in `src/unnamed/part_000`. -/
def durationRangeNames : List String := ["0-1h", "1-3h", "3-5h", "5h+"]

/-- States reachable from the initial slot configuration by the check-in,
check-out, add-slot and forced-release operations. -/
inductive Reachable : ParkState → Prop where
  | init : Reachable { slots := INITIAL_SLOTS, transactions := [] }
  | checkin (st : ParkState) (req : Option ParkingSlot)
      (eid p dn dp : String) (t : Int) :
      Reachable st → Reachable (handleEntry st req eid p dn dp t)
  | checkout (st : ParkState) (sl : ParkingSlot) (txId : String) (t : Int) :
      Reachable st → Reachable (processExit st sl txId t)
  | addSlot (st : ParkState) (sid num : String) :
      Reachable st → Reachable (handleAddSlot st sid num)
  | purge (st : ParkState) (sid : String) :
      Reachable st → Reachable (forcePurge st sid)

/-- Invariant I1: a slot carries a current occupant iff it is OCCUPIED. -/
def OccupantIffOccupied (st : ParkState) : Prop :=
  ∀ s ∈ st.slots, (s.currentCar.isSome ↔ s.status = SlotStatus.OCCUPIED)

theorem occupantIffOccupied_init :
    OccupantIffOccupied { slots := INITIAL_SLOTS, transactions := [] } := by
  intro s hs
  simp only [INITIAL_SLOTS, List.mem_map] at hs
  obtain ⟨i, -, rfl⟩ := hs
  simp

theorem occupantIffOccupied_handleEntry (st : ParkState)
    (req : Option ParkingSlot) (eid p dn dp : String) (t : Int)
    (h : OccupantIffOccupied st) :
    OccupantIffOccupied (handleEntry st req eid p dn dp t) := by
  unfold handleEntry
  cases req with
  | some u =>
    intro s hs
    simp only [List.mem_map] at hs
    obtain ⟨a, ha, rfl⟩ := hs
    by_cases hid : a.id = u.id
    · simp [hid]
    · simpa [hid] using h a ha
  | none =>
    cases hf : st.slots.find? (fun s => decide (s.status = SlotStatus.AVAILABLE)) with
    | none => simpa [hf] using h
    | some u =>
      simp only [hf]
      intro s hs
      simp only [List.mem_map] at hs
      obtain ⟨a, ha, rfl⟩ := hs
      by_cases hid : a.id = u.id
      · simp [hid]
      · simpa [hid] using h a ha

theorem occupantIffOccupied_processExit (st : ParkState)
    (sl : ParkingSlot) (txId : String) (t : Int)
    (h : OccupantIffOccupied st) :
    OccupantIffOccupied (processExit st sl txId t) := by
  unfold processExit
  cases sl.currentCar with
  | none => exact h
  | some entry =>
    intro s hs
    simp only [List.mem_map] at hs
    obtain ⟨a, ha, rfl⟩ := hs
    by_cases hid : a.id = sl.id
    · simp [hid]
    · simpa [hid] using h a ha

theorem occupantIffOccupied_handleAddSlot (st : ParkState)
    (sid num : String) (h : OccupantIffOccupied st) :
    OccupantIffOccupied (handleAddSlot st sid num) := by
  unfold handleAddSlot
  by_cases hnum : num = ""
  · simpa [hnum] using h
  · simp only [hnum, if_false]
    intro s hs
    rcases List.mem_append.mp hs with hs | hs
    · exact h s hs
    · simp only [List.mem_singleton] at hs
      subst hs
      simp

theorem occupantIffOccupied_forcePurge (st : ParkState)
    (sid : String) (h : OccupantIffOccupied st) :
    OccupantIffOccupied (forcePurge st sid) := by
  unfold forcePurge
  intro s hs
  simp only [List.mem_map] at hs
  obtain ⟨a, ha, rfl⟩ := hs
  by_cases hid : a.id = sid
  · simp [hid]
  · simpa [hid] using h a ha

/-- C6: in every state reachable from the initial slot configuration by any
sequence of check-in, check-out, add-slot and forced-release operations,
every slot has a current occupant attached iff its status is OCCUPIED
(invariant I1). -/
theorem reachable_occupant_iff_occupied (st : ParkState) (h : Reachable st) :
    ∀ s ∈ st.slots, (s.currentCar.isSome ↔ s.status = SlotStatus.OCCUPIED) := by
  induction h with
  | init => exact occupantIffOccupied_init
  | checkin st req eid p dn dp t _ ih =>
      exact occupantIffOccupied_handleEntry st req eid p dn dp t ih
  | checkout st sl txId t _ ih =>
      exact occupantIffOccupied_processExit st sl txId t ih
  | addSlot st sid num _ ih =>
      exact occupantIffOccupied_handleAddSlot st sid num ih
  | purge st sid _ ih =>
      exact occupantIffOccupied_forcePurge st sid ih

/-- Witness for `reachable_occupant_iff_occupied`: the initial state is
reachable and satisfies I1. -/
theorem reachable_occupant_iff_occupied_witness :
    Reachable { slots := INITIAL_SLOTS, transactions := [] } ∧
    ∀ s ∈ INITIAL_SLOTS, (s.currentCar.isSome ↔ s.status = SlotStatus.OCCUPIED) :=
  ⟨Reachable.init, reachable_occupant_iff_occupied _ Reachable.init⟩

theorem list_map_eq_self {α : Type _} {l : List α} {f : α → α}
    (h : ∀ x ∈ l, f x = x) : l.map f = l := by
  induction l with
  | nil => rfl
  | cons a l ih =>
      simp only [List.map_cons, h a (List.mem_cons_self a l),
        ih (fun x hx => h x (List.mem_cons_of_mem a hx))]

/-- C7: from any registry state, checking a car into an AVAILABLE slot with
a unique id and immediately checking the same slot out appends exactly one
transaction to the ledger and restores the slot registry to its state
before the check-in (the slot is AVAILABLE again, with no occupant). -/
theorem checkin_checkout_roundtrip (st : ParkState) (slot : ParkingSlot)
    (eid plate dn dp txId : String) (t1 t2 : Int)
    (hav : slot.status = SlotStatus.AVAILABLE)
    (hnone : slot.currentCar = none)
    (huniq : ∀ s ∈ st.slots, s.id = slot.id → s = slot) :
    processExit (handleEntry st (some slot) eid plate dn dp t1)
        { slot with
          status := SlotStatus.OCCUPIED,
          currentCar := some
            { id := eid, plateNumber := plate.toUpper, driverName := dn,
              driverPhone := dp, entryTime := t1, slotId := slot.id } }
        txId t2
      = { slots := st.slots,
          transactions := st.transactions ++
            [{ id := txId, plateNumber := plate.toUpper, driverName := dn,
               entryTime := t1, exitTime := t2,
               durationMinutes := ⌊((t2 - t1 : Int) : ℚ) / 60000⌋,
               totalFee := AppV3.calculateLiveFee t1 t2,
               slotNumber := slot.number }] } := by
  unfold handleEntry processExit
  simp only [ParkState.mk.injEq]
  constructor
  · rw [List.map_map]
    apply list_map_eq_self
    intro x hx
    by_cases hid : x.id = slot.id
    · have hx' : x = slot := huniq x hx hid
      subst hx'
      obtain ⟨xid, xnum, xstatus, xcar⟩ := x
      simp only at hav hnone
      subst hav; subst hnone
      simp
    · simp [Function.comp, hid]
  · trivial

/-- Witness for `checkin_checkout_roundtrip` on a one-slot registry. -/
theorem checkin_checkout_roundtrip_witness :
    (let slot : ParkingSlot :=
      { id := "s1", number := "A01", status := SlotStatus.AVAILABLE,
        currentCar := none }
    let st : ParkState := { slots := [slot], transactions := [] }
    processExit (handleEntry st (some slot) "e1" "rae123a" "Driver" "0788" 0)
        { slot with
          status := SlotStatus.OCCUPIED,
          currentCar := some
            { id := "e1", plateNumber := "rae123a".toUpper,
              driverName := "Driver", driverPhone := "0788", entryTime := 0,
              slotId := slot.id } }
        "tx1" 60000
      = { slots := st.slots,
          transactions := st.transactions ++
            [{ id := "tx1", plateNumber := "rae123a".toUpper,
               driverName := "Driver", entryTime := 0, exitTime := 60000,
               durationMinutes := ⌊((60000 - 0 : Int) : ℚ) / 60000⌋,
               totalFee := AppV3.calculateLiveFee 0 60000,
               slotNumber := slot.number }] }) :=
  checkin_checkout_roundtrip _ _ "e1" "rae123a" "Driver" "0788" "tx1" 0 60000
    rfl rfl (by decide)

/-- C1: a one-minute visit at rate 500 / minimum fee 300.  The `App.tsx`
calculator returns 300, not the claimed 500, because it applies the ceiling
to `hours × rate` instead of to the hours; the `part_000` variant — which
carries the comment "Requirement: Drivers should be charged 500Rwf per
hour" — returns the claimed 500. -/
theorem oneMinuteFee_eval :
    AppV3.calculateLiveFee 0 60000 = 300 ∧
    Pssms.calculateLiveFee 0 60000 = 500 := by
  constructor
  · rw [AppV3.calculateLiveFee, AppV3.liveFee_intDiv]; decide
  · rw [Pssms.calculateLiveFee, Pssms.liveFee_intCeilDiv]; decide

/-- C2: the instants 61 min and 62 min after entry lie strictly inside the
same elapsed hour, yet the `App.tsx` fee strictly increases between them
(509 → 517); the `part_000` variant is constant (1000) there, as the claim
describes for the whole-hour step policy. -/
theorem feeWithinHour_eval :
    AppV3.calculateLiveFee 0 3660000 = 509 ∧
    AppV3.calculateLiveFee 0 3720000 = 517 ∧
    Pssms.calculateLiveFee 0 3660000 = 1000 ∧
    Pssms.calculateLiveFee 0 3720000 = 1000 := by
  refine ⟨?_, ?_, ?_, ?_⟩ <;>
    first
      | (rw [AppV3.calculateLiveFee, AppV3.liveFee_intDiv]; decide)
      | (rw [Pssms.calculateLiveFee, Pssms.liveFee_intCeilDiv]; decide)

/-- The whole-hour step policy does hold for the `part_000` fee variant:
for a nonnegative rate the fee is non-decreasing in `now`, and it strictly
increases only when the ceiling of the elapsed hours increases. -/
theorem Pssms.liveFee_mono_step (rate minFee entry n1 n2 : Int)
    (hrate : 0 ≤ rate) (h12 : n1 ≤ n2) :
    Pssms.liveFee rate minFee entry n1 ≤ Pssms.liveFee rate minFee entry n2 ∧
    (Pssms.liveFee rate minFee entry n1 < Pssms.liveFee rate minFee entry n2 →
      ⌈((n1 - entry : Int) : ℚ) / 3600000⌉ < ⌈((n2 - entry : Int) : ℚ) / 3600000⌉) := by
  have hq : ((n1 - entry : Int) : ℚ) / 3600000 ≤ ((n2 - entry : Int) : ℚ) / 3600000 := by
    apply div_le_div_of_nonneg_right ?_ (by norm_num)
    · exact_mod_cast sub_le_sub_right h12 entry
  have hc : ⌈((n1 - entry : Int) : ℚ) / 3600000⌉ ≤ ⌈((n2 - entry : Int) : ℚ) / 3600000⌉ :=
    Int.ceil_le_ceil hq
  constructor
  · unfold Pssms.liveFee
    exact max_le_max le_rfl (mul_le_mul_of_nonneg_right hc hrate)
  · intro hlt
    by_contra hnot
    push_neg at hnot
    have heq : ⌈((n1 - entry : Int) : ℚ) / 3600000⌉
        = ⌈((n2 - entry : Int) : ℚ) / 3600000⌉ := le_antisymm hc hnot
    unfold Pssms.liveFee at hlt
    rw [heq] at hlt
    exact lt_irrefl _ hlt

/-- Witness for `Pssms.liveFee_mono_step` at rate 500 between 61 and 62
minutes of elapsed time. -/
theorem Pssms.liveFee_mono_step_witness :
    (0 : Int) ≤ 500 ∧ (3660000 : Int) ≤ 3720000 ∧
    Pssms.liveFee 500 300 0 3660000 ≤ Pssms.liveFee 500 300 0 3720000 :=
  ⟨by decide, by decide,
    (Pssms.liveFee_mono_step 500 300 0 3660000 3720000 (by decide) (by decide)).1⟩

/-- The occupant used by the C3 scenario: entered at instant 5000. -/
def carC3 : CarEntry :=
  { id := "c1", plateNumber := "RAE123A", driverName := "Driver",
    driverPhone := "0788", entryTime := 5000, slotId := "s1" }

/-- A slot occupied by `carC3`. -/
def slotC3 : ParkingSlot :=
  { id := "s1", number := "A01", status := SlotStatus.OCCUPIED,
    currentCar := some carC3 }

/-- A registry holding only `slotC3`, with an empty ledger. -/
def stC3 : ParkState := { slots := [slotC3], transactions := [] }

/-- C3 counterexample: checking out at the very instant of check-in (exit
time = entry time = 5000) appends a transaction whose exit timestamp does
not exceed its entry timestamp — no InvalidTransaction rejection occurs and
the ledger grows. -/
theorem exitNotAfterEntry_appended :
    ((processExit stC3 slotC3 "tx1" 5000).transactions.map
      (fun t => (t.entryTime, t.exitTime))) = [(5000, 5000)] := rfl

/-- C3 amended: `processExit` performs no validation and cannot fail —
whenever the selected slot holds an occupant it appends exactly one
transaction; the appended fee is ≥ MIN_FEE by construction, but the exit
timestamp is simply the checkout instant and may be ≤ the entry
timestamp. -/
theorem processExit_always_appends (st : ParkState) (sl : ParkingSlot)
    (txId : String) (now : Int) (c : CarEntry) (hc : sl.currentCar = some c) :
    (processExit st sl txId now).transactions
      = st.transactions ++
        [{ id := txId, plateNumber := c.plateNumber, driverName := c.driverName,
           entryTime := c.entryTime, exitTime := now,
           durationMinutes := ⌊((now - c.entryTime : Int) : ℚ) / 60000⌋,
           totalFee := AppV3.calculateLiveFee c.entryTime now,
           slotNumber := sl.number }] ∧
    MIN_FEE ≤ AppV3.calculateLiveFee c.entryTime now := by
  unfold processExit
  rw [hc]
  exact ⟨rfl, le_max_left _ _⟩

/-- Witness for `processExit_always_appends` on the C3 scenario. -/
theorem processExit_always_appends_witness :
    slotC3.currentCar = some carC3 ∧
    (processExit stC3 slotC3 "tx1" 5000).transactions
      = stC3.transactions ++
        [{ id := "tx1", plateNumber := carC3.plateNumber,
           driverName := carC3.driverName, entryTime := carC3.entryTime,
           exitTime := 5000,
           durationMinutes := ⌊((5000 - carC3.entryTime : Int) : ℚ) / 60000⌋,
           totalFee := AppV3.calculateLiveFee carC3.entryTime 5000,
           slotNumber := slotC3.number }] ∧
    MIN_FEE ≤ AppV3.calculateLiveFee carC3.entryTime 5000 :=
  ⟨rfl, (processExit_always_appends stC3 slotC3 "tx1" 5000 carC3 rfl).1,
    (processExit_always_appends stC3 slotC3 "tx1" 5000 carC3 rfl).2⟩

/-- A slot under maintenance, unoccupied. -/
def maintSlot : ParkingSlot :=
  { id := "m1", number := "M01", status := SlotStatus.MAINTENANCE,
    currentCar := none }

/-- A registry holding only `maintSlot`. -/
def stMaint : ParkState := { slots := [maintSlot], transactions := [] }

/-- C4 counterexample: invoking check-in with a requested slot that is in
MAINTENANCE does not fail with SlotUnavailable — the slot's status is
changed to OCCUPIED and an occupant is attached. -/
theorem maintenanceSlot_occupied :
    ((handleEntry stMaint (some maintSlot) "e1" "RAE1" "Driver" "0788" 0).slots.map
      (fun s => (s.status, s.currentCar.isSome)))
      = [(SlotStatus.OCCUPIED, true)] := rfl

/-- C4 amended: `handleEntry` performs no status check on a requested slot —
a requested slot is occupied whatever its status; only the automatic
selection is restricted to AVAILABLE slots, and the no-capacity failure
(state unchanged) happens only when no slot is requested and none is
AVAILABLE. -/
theorem handleEntry_requested_unchecked (st : ParkState) (r : ParkingSlot)
    (eid p dn dp : String) (t : Int) :
    (r ∈ st.slots →
      ∃ s ∈ (handleEntry st (some r) eid p dn dp t).slots,
        s.id = r.id ∧ s.status = SlotStatus.OCCUPIED ∧ s.currentCar.isSome) ∧
    ((∀ s ∈ st.slots, s.status ≠ SlotStatus.AVAILABLE) →
      handleEntry st none eid p dn dp t = st) := by
  constructor
  · intro hr
    unfold handleEntry
    refine ⟨_, List.mem_map.mpr ⟨r, hr, rfl⟩, ?_⟩
    simp
  · intro hall
    unfold handleEntry
    have hf : st.slots.find? (fun s => decide (s.status = SlotStatus.AVAILABLE))
        = none := by
      rw [List.find?_eq_none]
      intro x hx
      simpa using hall x hx
    simp [hf]

/-- Witness for `handleEntry_requested_unchecked` on the one-maintenance-slot
registry: the requested MAINTENANCE slot gets occupied, and with no request
the operation is a no-op. -/
theorem handleEntry_requested_unchecked_witness :
    maintSlot ∈ stMaint.slots ∧
    (∃ s ∈ (handleEntry stMaint (some maintSlot) "e1" "RAE1" "Driver" "0788" 0).slots,
      s.id = maintSlot.id ∧ s.status = SlotStatus.OCCUPIED ∧ s.currentCar.isSome) ∧
    handleEntry stMaint none "e1" "RAE1" "Driver" "0788" 0 = stMaint :=
  ⟨by decide,
    (handleEntry_requested_unchecked stMaint maintSlot "e1" "RAE1" "Driver" "0788" 0).1
      (by decide),
    (handleEntry_requested_unchecked stMaint maintSlot "e1" "RAE1" "Driver" "0788" 0).2
      (by decide)⟩

/-- C5 counterexample: with the clock one hour behind the recorded entry
time, both fee calculators return the ordinary minimum fee 300 — the
negative duration is silently clamped into a valid fee, and no error is
surfaced. -/
theorem negativeDuration_fee_eval :
    AppV3.calculateLiveFee 3600000 0 = 300 ∧
    Pssms.calculateLiveFee 3600000 0 = 300 := by
  constructor
  · rw [AppV3.calculateLiveFee, AppV3.liveFee_intDiv]; decide
  · rw [Pssms.calculateLiveFee, Pssms.liveFee_intCeilDiv]; decide

/-- C5 amended: for every entry time later than `now`, the fee computation
silently clamps — with a nonnegative rate and minimum fee both variants
return exactly the minimum fee, surfacing no error condition. -/
theorem negativeDuration_clamped (rate minFee entry now : Int)
    (hrate : 0 ≤ rate) (hmin : 0 ≤ minFee) (hlt : now < entry) :
    AppV3.liveFee rate minFee entry now = minFee ∧
    Pssms.liveFee rate minFee entry now = minFee := by
  have hd : ((now - entry : Int) : ℚ) ≤ 0 := by
    have : (now - entry : Int) ≤ 0 := by omega
    exact_mod_cast this
  have hdiv : ((now - entry : Int) : ℚ) / 3600000 ≤ 0 :=
    div_nonpos_iff.mpr (Or.inr ⟨hd, by norm_num⟩)
  have hrq : (0 : ℚ) ≤ (rate : ℚ) := by exact_mod_cast hrate
  constructor
  · unfold AppV3.liveFee
    apply max_eq_left
    have hle : ((now - entry : Int) : ℚ) / 3600000 * (rate : ℚ) ≤ 0 :=
      mul_nonpos_iff.mpr (Or.inr ⟨hdiv, hrq⟩)
    have : ⌈((now - entry : Int) : ℚ) / 3600000 * (rate : ℚ)⌉ ≤ 0 :=
      Int.ceil_le.mpr (by exact_mod_cast hle)
    omega
  · unfold Pssms.liveFee
    apply max_eq_left
    have hceil : ⌈((now - entry : Int) : ℚ) / 3600000⌉ ≤ 0 :=
      Int.ceil_le.mpr (by exact_mod_cast hdiv)
    have : ⌈((now - entry : Int) : ℚ) / 3600000⌉ * rate ≤ 0 :=
      mul_nonpos_iff.mpr (Or.inr ⟨hceil, hrate⟩)
    omega

/-- Witness for `negativeDuration_clamped` at the repository tariff with the
entry one hour after `now`. -/
theorem negativeDuration_clamped_witness :
    (0 : Int) ≤ 500 ∧ (0 : Int) ≤ 300 ∧ (0 : Int) < 3600000 ∧
    AppV3.liveFee 500 300 3600000 0 = 300 ∧
    Pssms.liveFee 500 300 3600000 0 = 300 :=
  ⟨by decide, by decide, by decide,
    (negativeDuration_clamped 500 300 3600000 0 (by decide) (by decide) (by decide)).1,
    (negativeDuration_clamped 500 300 3600000 0 (by decide) (by decide) (by decide)).2⟩

/-- C8 counterexample: a closed transaction of exactly 60 minutes is
classified by the transaction histogram of `analyticsData` into bucket 0,
labelled "0-1h" — not into the claimed second bucket "1-3h". -/
theorem sixtyMinutes_firstBucket :
    durationRangeIndex 60 = 0 ∧ durationRangeNames.get? 0 = some "0-1h" := by
  constructor
  · unfold durationRangeIndex
    norm_num
  · rfl

/-- C8 amended: the active-occupant histogram of `App.tsx` is half-open —
elapsed time under one hour lands in the first bucket and exactly one hour
in the second; the transaction histogram of `part_000` instead uses
inclusive upper bounds — a duration of exactly 60 minutes lands in the
first bucket "0-1h", and the second bucket holds 60 < d ≤ 180 minutes. -/
theorem durationBuckets_boundaries (entry m : Int) :
    (m < 3600000 → durationCategory entry (entry + m) = 0) ∧
    (durationCategory entry (entry + 3600000) = 1) ∧
    (m ≤ 60 → durationRangeIndex m = 0) ∧
    (60 < m → m ≤ 180 → durationRangeIndex m = 1) := by
  have hsub : ((entry + m - entry : Int) : ℚ) = (m : ℚ) := by
    push_cast; ring
  refine ⟨?_, ?_, ?_, ?_⟩
  · intro hm
    unfold durationCategory
    rw [hsub]
    have : (m : ℚ) / 3600000 < 1 := by
      rw [div_lt_one (by norm_num)]
      exact_mod_cast hm
    simp [this]
  · unfold durationCategory
    rw [show ((entry + 3600000 - entry : Int) : ℚ) = (3600000 : ℚ) from by
      push_cast; ring]
    norm_num
  · intro hm
    unfold durationRangeIndex
    have : (m : ℚ) / 60 ≤ 1 := by
      rw [div_le_one (by norm_num)]
      exact_mod_cast hm
    simp [this]
  · intro hm1 hm2
    unfold durationRangeIndex
    have h1 : ¬ ((m : ℚ) / 60 ≤ 1) := by
      rw [not_le, lt_div_iff₀ (by norm_num)]
      exact_mod_cast hm1
    have h2 : (m : ℚ) / 60 ≤ 3 := by
      rw [div_le_iff₀ (by norm_num)]
      exact_mod_cast hm2
    simp [h1, h2]

/-- Witness for `durationBuckets_boundaries`: 59 minutes of live elapsed
time is "Short", exactly one hour is "Mid"; a 60-minute transaction is
"0-1h" and a 100-minute transaction is "1-3h". -/
theorem durationBuckets_boundaries_witness :
    (3540000 : Int) < 3600000 ∧ (60 : Int) ≤ 60 ∧ (60 : Int) < 100 ∧
    durationCategory 0 (0 + 3540000) = 0 ∧
    durationCategory 0 (0 + 3600000) = 1 ∧
    durationRangeIndex 60 = 0 ∧
    durationRangeIndex 100 = 1 :=
  ⟨by decide, by decide, by decide,
    (durationBuckets_boundaries 0 3540000).1 (by decide),
    (durationBuckets_boundaries 0 3540000).2.1,
    (durationBuckets_boundaries 0 60).2.2.1 (by decide),
    (durationBuckets_boundaries 0 100).2.2.2 (by decide) (by decide)⟩

/-- A sample settled transaction sitting in the ledger. -/
def ledgerTx : Transaction :=
  { id := "t1", plateNumber := "RAE123A", driverName := "Driver",
    entryTime := 0, exitTime := 3600000, durationMinutes := 60,
    totalFee := 500, slotNumber := "A01" }

/-- An edit payload whose id ("t2") matches nothing in the ledger. -/
def ghostTx : Transaction :=
  { id := "t2", plateNumber := "RAE123A", driverName := "Driver",
    entryTime := 0, exitTime := 3600000, durationMinutes := 60,
    totalFee := 500, slotNumber := "A01" }

/-- C9 counterexample: editing or deleting an id that is absent from the
ledger returns the unchanged ledger as an ordinary result — no NotFound
failure occurs. -/
theorem missingId_silent_noop :
    handleUpdateRecord [ledgerTx] ghostTx = [ledgerTx] ∧
    handleDeleteRecord [ledgerTx] "t2" = [ledgerTx] := by
  exact ⟨rfl, rfl⟩

/-- C9 amended: when the id is absent, edit and delete are silent no-ops
returning the ledger unchanged (no NotFound); when it is present, edit
replaces exactly the matching transactions by the supplied record, without
recomputation, and delete removes exactly the matching transactions. -/
theorem editDelete_semantics (ts : List Transaction) (r : Transaction)
    (tid : String) :
    ((∀ t ∈ ts, t.id ≠ r.id) → handleUpdateRecord ts r = ts) ∧
    ((∀ t ∈ ts, t.id ≠ tid) → handleDeleteRecord ts tid = ts) ∧
    (∀ t ∈ handleUpdateRecord ts r, t ∈ ts ∨ t = r) ∧
    (∀ t ∈ handleDeleteRecord ts tid, t ∈ ts ∧ t.id ≠ tid) ∧
    (∀ t ∈ ts, t.id ≠ tid → t ∈ handleDeleteRecord ts tid) := by
  refine ⟨?_, ?_, ?_, ?_, ?_⟩
  · intro h
    apply list_map_eq_self
    intro t ht
    simp [h t ht]
  · intro h
    unfold handleDeleteRecord
    rw [List.filter_eq_self]
    intro t ht
    simpa using h t ht
  · intro t ht
    unfold handleUpdateRecord at ht
    obtain ⟨a, ha, hval⟩ := List.mem_map.mp ht
    by_cases hid : a.id = r.id
    · right
      rw [← hval]
      simp [hid]
    · left
      rw [← hval]
      simpa [hid] using ha
  · intro t ht
    unfold handleDeleteRecord at ht
    have := List.mem_filter.mp ht
    refine ⟨this.1, ?_⟩
    simpa using this.2
  · intro t ht hne
    unfold handleDeleteRecord
    exact List.mem_filter.mpr ⟨ht, by simpa using hne⟩

/-- Witness for `editDelete_semantics` on a one-entry ledger and the absent
id "t2". -/
theorem editDelete_semantics_witness :
    (∀ t ∈ [ledgerTx], t.id ≠ ghostTx.id) ∧
    handleUpdateRecord [ledgerTx] ghostTx = [ledgerTx] ∧
    handleDeleteRecord [ledgerTx] "t2" = [ledgerTx] ∧
    (∀ t ∈ [ledgerTx], t.id ≠ "t9" → t ∈ handleDeleteRecord [ledgerTx] "t9") :=
  ⟨by decide,
    (editDelete_semantics [ledgerTx] ghostTx "t2").1 (by decide),
    (editDelete_semantics [ledgerTx] ghostTx "t2").2.1 (by decide),
    (editDelete_semantics [ledgerTx] ghostTx "t9").2.2.2.2⟩

theorem length_filter_status (l : List ParkingSlot) :
    l.length
      = (l.filter (fun s => decide (s.status = SlotStatus.AVAILABLE))).length
        + (l.filter (fun s => decide (s.status = SlotStatus.OCCUPIED))).length
        + (l.filter (fun s => decide (s.status = SlotStatus.MAINTENANCE))).length := by
  induction l with
  | nil => rfl
  | cons a l ih =>
    rcases ha : a.status <;>
      simp [List.filter_cons, ha, ih] <;> omega

/-- C10: the derived stats compute `availableSlots` as the total slot count
minus the OCCUPIED count, which equals the number of AVAILABLE slots plus
the number of MAINTENANCE slots — so a MAINTENANCE slot is reported as
available; yet the automatic slot selection only ever returns a slot whose
status is AVAILABLE, never a MAINTENANCE one. -/
theorem stats_available_counts (slots : List ParkingSlot)
    (ts : List Transaction) :
    ((stats slots ts).availableSlots
      = ((slots.filter (fun s => decide (s.status = SlotStatus.AVAILABLE))).length : Int)
        + ((slots.filter (fun s => decide (s.status = SlotStatus.MAINTENANCE))).length : Int)) ∧
    (∀ r, slots.find? (fun s => decide (s.status = SlotStatus.AVAILABLE)) = some r →
      r.status = SlotStatus.AVAILABLE) := by
  constructor
  · simp only [stats]
    have h := length_filter_status slots
    omega
  · intro r hr
    have := List.find?_some hr
    simpa using this

/-- An ordinary available slot, used alongside `maintSlot`. -/
def availSlotA2 : ParkingSlot :=
  { id := "a1", number := "A02", status := SlotStatus.AVAILABLE,
    currentCar := none }

/-- Witness for `stats_available_counts` on a registry with one MAINTENANCE
and one AVAILABLE slot: the automatic selection skips the MAINTENANCE slot,
and the stats count both slots as available. -/
theorem stats_available_counts_witness :
    ([maintSlot, availSlotA2].find?
        (fun s => decide (s.status = SlotStatus.AVAILABLE)) = some availSlotA2) ∧
    availSlotA2.status = SlotStatus.AVAILABLE ∧
    (stats [maintSlot, availSlotA2] []).availableSlots = 2 := by
  refine ⟨by decide, ?_, ?_⟩
  · exact (stats_available_counts [maintSlot, availSlotA2] []).2 _ (by decide)
  · rw [(stats_available_counts [maintSlot, availSlotA2] []).1]
    decide

end SmartPark
